import Mathlib

/-!
The script webtest/script.js: a single WebGPU triangle

A shallow embedding of `src/webtest/script.js`.  The script is one `async function init`
followed by one call of it.  Everything `init` does is a request to its host (the global
scope, the DOM, the console, the GPU); the host is modelled as a deterministic environment
that answers each request knowing the whole history of the interaction so far, and a run of
`init` is the list of the requests made, with their answers, together with the way the run
ended (completed, threw, or suspended for ever at an `await`).

The two WGSL shaders the script passes as text are embedded as small syntax trees with an
evaluator; a printer reproduces the text the script holds from the trees.
-/

namespace WebTest

/-! ## Values and descriptors -/

/-- JavaScript values as far as the script tells them apart: the two values on which a
property read throws, and everything else, named by a handle chosen by the host. -/
inductive Val
  | null
  | undefined
  | obj (h : Nat)
  deriving DecidableEq, Repr

/-- The literal `{ shaderLocation, offset, format }`. -/
structure VertexAttribute where
  shaderLocation : Nat
  offset : Nat
  format : String
  deriving DecidableEq, Repr

/-- The literal `{ arrayStride, attributes }`. -/
structure VertexBufferLayout where
  arrayStride : Nat
  attributes : List VertexAttribute
  deriving DecidableEq, Repr

/-- The literal `{ code }` passed to `createShaderModule`. -/
structure ShaderModuleDescriptor where
  code : String
  deriving DecidableEq, Repr

/-- The literal `vertex: { module, entryPoint, buffers }`. -/
structure VertexState where
  module : Val
  entryPoint : String
  buffers : List VertexBufferLayout
  deriving DecidableEq, Repr

/-- The literal `{ format }` of a colour target. -/
structure ColorTargetState where
  format : String
  deriving DecidableEq, Repr

/-- The literal `fragment: { module, entryPoint, targets }`. -/
structure FragmentState where
  module : Val
  entryPoint : String
  targets : List ColorTargetState
  deriving DecidableEq, Repr

/-- The literal `primitive: { topology, frontFace, cullMode }`. -/
structure PrimitiveState where
  topology : String
  frontFace : String
  cullMode : String
  deriving DecidableEq, Repr

/-- The argument of `createRenderPipeline`. -/
structure RenderPipelineDescriptor where
  vertex : VertexState
  fragment : FragmentState
  primitive : PrimitiveState
  deriving DecidableEq, Repr

/-- The literal `{ view, loadValue, storeOp }`.  The numeric literals `0.0` and `1.0` of
`loadValue` denote the numbers 0 and 1. -/
structure ColorAttachment where
  view : Val
  loadValue : List Nat
  storeOp : String
  deriving DecidableEq, Repr

/-- The object `renderPassDescriptor`. -/
structure RenderPassDescriptor where
  colorAttachments : List ColorAttachment
  deriving DecidableEq, Repr

/-! ## Requests to the host -/

/-- A method call made by `init`: the receiver first, then the arguments. -/
inductive Call
  | getElementById (document : Val) (id : String)
  | log (console : Val) (v : Val)
  | getContext (canvas : Val) (contextType : String)
  | requestAdapter (gpu : Val)
  | requestDevice (adapter : Val)
  | createShaderModule (device : Val) (d : ShaderModuleDescriptor)
  | createRenderPipeline (device : Val) (d : RenderPipelineDescriptor)
  | createCommandEncoder (device : Val)
  | getCurrentTexture (context : Val)
  | createView (texture : Val)
  | beginRenderPass (commandEncoder : Val) (d : RenderPassDescriptor)
  | setPipeline (passEncoder : Val) (pipeline : Val)
  | setVertexBuffer (passEncoder : Val) (slot : Nat) (buffer : Val)
  | draw (passEncoder : Val) (vertexCount instanceCount firstVertex firstInstance : Nat)
  | endPass (passEncoder : Val)
  | finish (commandEncoder : Val)
  | submit (queue : Val) (commandBuffers : List Val)
  deriving DecidableEq, Repr

/-- What a run of `init` leaves behind, in the order it happens. -/
inductive Event
  | call (c : Call)
  | ret (c : Call) (v : Val)
  | read (o : Val) (prop : String) (v : Val)
  | resumed (promise : Val) (v : Val)
  deriving DecidableEq, Repr

/-- What ends a run early. -/
inductive Thrown
  | referenceError (name : String)
  | typeError (o : Val) (prop : String)
  | host (v : Val)
  deriving DecidableEq, Repr

/-- The host's answer to a call or to a property read. -/
inductive Reply
  | returns (v : Val)
  | throws (v : Val)
  deriving DecidableEq, Repr

/-- The host's answer to an `await`. -/
inductive Settle
  | fulfilled (v : Val)
  | rejected (v : Val)
  | pending
  deriving DecidableEq, Repr

/-- The host.  Each answer may depend on the history of the run so far. -/
structure Env where
  global : List Event → String → Option Val
  get : List Event → Val → String → Reply
  call : List Event → Call → Reply
  await : List Event → Val → Settle

/-- How a run ends. -/
inductive Outcome (α : Type)
  | done (a : α)
  | threw (t : Thrown)
  | stalled
  deriving DecidableEq, Repr

/-- A run: the events so far and the way it ended. -/
structure Run (α : Type) where
  trace : List Event
  outcome : Outcome α

/-- A piece of script: it extends the history it starts from. -/
def Script (α : Type) : Type := List Event → Run α

/-- A value, no request. -/
def Script.pure {α : Type} (a : α) : Script α :=
  fun tr => ⟨tr, .done a⟩

/-- Sequencing: the rest runs only when the first part completes. -/
def Script.bind {α β : Type} (m : Script α) (f : α → Script β) : Script β :=
  fun tr =>
    match m tr with
    | ⟨tr1, .done a⟩ => f a tr1
    | ⟨tr1, .threw t⟩ => ⟨tr1, .threw t⟩
    | ⟨tr1, .stalled⟩ => ⟨tr1, .stalled⟩

instance : Monad Script where
  pure := Script.pure
  bind := Script.bind

/-- Evaluation of a free identifier: a ReferenceError when the global scope has no binding. -/
def resolve (env : Env) (name : String) : Script Val :=
  fun tr =>
    match env.global tr name with
    | some v => ⟨tr, .done v⟩
    | none => ⟨tr, .threw (.referenceError name)⟩

/-- The base of a member expression `o.prop`: a TypeError on `null` and `undefined`. -/
def member (o : Val) (prop : String) : Script Unit :=
  fun tr =>
    match o with
    | .null => ⟨tr, .threw (.typeError .null prop)⟩
    | .undefined => ⟨tr, .threw (.typeError .undefined prop)⟩
    | .obj _ => ⟨tr, .done ()⟩

/-- The property read `o.prop`. -/
def getProp (env : Env) (o : Val) (prop : String) : Script Val :=
  fun tr =>
    match o with
    | .null => ⟨tr, .threw (.typeError .null prop)⟩
    | .undefined => ⟨tr, .threw (.typeError .undefined prop)⟩
    | .obj h =>
      match env.get tr (.obj h) prop with
      | .returns v => ⟨tr ++ [.read (.obj h) prop v], .done v⟩
      | .throws e => ⟨tr, .threw (.host e)⟩

/-- The call itself, once callee and arguments are evaluated. -/
def invoke (env : Env) (c : Call) : Script Val :=
  fun tr =>
    match env.call tr c with
    | .returns v => ⟨tr ++ [.call c, .ret c v], .done v⟩
    | .throws e => ⟨tr ++ [.call c], .threw (.host e)⟩

/-- The expression `await p`. -/
def await (env : Env) (p : Val) : Script Val :=
  fun tr =>
    match env.await tr p with
    | .fulfilled v => ⟨tr ++ [.resumed p v], .done v⟩
    | .rejected e => ⟨tr, .threw (.host e)⟩
    | .pending => ⟨tr, .stalled⟩

/-! ## The script -/

/-- The template literal of the vertex stage (lines 18 to 23). -/
def vertexCode : String :=
  "\n          [[stage(vertex)]]\n          fn main([[location(0)]] position : vec2<f32>) -> [[builtin(position)]] vec4<f32> \x7b\n            return vec4<f32>(position, 0.0, 1.0);\n          \x7d\n        "

/-- The template literal of the fragment stage (lines 37 to 42). -/
def fragmentCode : String :=
  "\n          [[stage(fragment)]]\n          fn main() -> [[location(0)]] vec4<f32> \x7b\n            return vec4<f32>(1.0, 0.0, 0.0, 1.0);\n          \x7d\n        "

/-- The object literal passed to `createRenderPipeline` (lines 15 to 54), given the two
shader modules its `module` fields evaluate to. -/
def pipelineDescriptor (vertexModule fragmentModule : Val) : RenderPipelineDescriptor where
  vertex :=
    { module := vertexModule
      entryPoint := "main"
      buffers := [
        { arrayStride := 2 * 4
          attributes := [
            { shaderLocation := 0
              offset := 0
              format := "float32x2" }] }] }
  fragment :=
    { module := fragmentModule
      entryPoint := "main"
      targets := [{ format := "bgra8unorm" }] }
  primitive :=
    { topology := "triangle-list"
      frontFace := "ccw"
      cullMode := "none" }

/-- The object literal `renderPassDescriptor` (lines 58 to 64), given the texture view. -/
def renderPassDescriptor (view : Val) : RenderPassDescriptor where
  colorAttachments := [
    { view := view
      loadValue := [0, 0, 0, 1]
      storeOp := "store" }]

/-- The function `init` (lines 1 to 75).  A member call `o.m(args)` evaluates `o`, reads
`o.m` (a TypeError on `null` and `undefined`), evaluates the arguments left to right and
then calls. -/
def init (env : Env) : Script Unit := do
  -- const canvas = document.getElementById('canvas');
  let document ← resolve env "document"
  member document "getElementById"
  let canvas ← invoke env (.getElementById document "canvas")
  -- console.log(canvas);
  let console ← resolve env "console"
  member console "log"
  let _ ← invoke env (.log console canvas)
  -- const context = canvas.getContext('webgpu');
  member canvas "getContext"
  let context ← invoke env (.getContext canvas "webgpu")
  -- console.log(context);
  let console ← resolve env "console"
  member console "log"
  let _ ← invoke env (.log console context)
  -- console.log(navigator);
  let console ← resolve env "console"
  member console "log"
  let navigator ← resolve env "navigator"
  let _ ← invoke env (.log console navigator)
  -- console.log(navigator.gpu);
  let console ← resolve env "console"
  member console "log"
  let navigator ← resolve env "navigator"
  let gpu ← getProp env navigator "gpu"
  let _ ← invoke env (.log console gpu)
  -- const adapter = await navigator.gpu.requestAdapter();
  let navigator ← resolve env "navigator"
  let gpu ← getProp env navigator "gpu"
  member gpu "requestAdapter"
  let adapterPromise ← invoke env (.requestAdapter gpu)
  let adapter ← await env adapterPromise
  -- const device = await adapter.requestDevice();
  member adapter "requestDevice"
  let devicePromise ← invoke env (.requestDevice adapter)
  let device ← await env devicePromise
  -- const pipeline = device.createRenderPipeline({ ... });
  member device "createRenderPipeline"
  member device "createShaderModule"
  let vertexModule ← invoke env (.createShaderModule device ⟨vertexCode⟩)
  member device "createShaderModule"
  let fragmentModule ← invoke env (.createShaderModule device ⟨fragmentCode⟩)
  let pipeline ← invoke env
    (.createRenderPipeline device (pipelineDescriptor vertexModule fragmentModule))
  -- const commandEncoder = device.createCommandEncoder();
  member device "createCommandEncoder"
  let commandEncoder ← invoke env (.createCommandEncoder device)
  -- const renderPassDescriptor = { ... context.getCurrentTexture().createView() ... };
  member context "getCurrentTexture"
  let texture ← invoke env (.getCurrentTexture context)
  member texture "createView"
  let view ← invoke env (.createView texture)
  -- const passEncoder = commandEncoder.beginRenderPass(renderPassDescriptor);
  member commandEncoder "beginRenderPass"
  let passEncoder ← invoke env (.beginRenderPass commandEncoder (renderPassDescriptor view))
  -- passEncoder.setPipeline(pipeline);
  member passEncoder "setPipeline"
  let _ ← invoke env (.setPipeline passEncoder pipeline)
  -- passEncoder.setVertexBuffer(0, vertexBuffer);
  member passEncoder "setVertexBuffer"
  let vertexBuffer ← resolve env "vertexBuffer"
  let _ ← invoke env (.setVertexBuffer passEncoder 0 vertexBuffer)
  -- passEncoder.draw(3, 1, 0, 0);
  member passEncoder "draw"
  let _ ← invoke env (.draw passEncoder 3 1 0 0)
  -- passEncoder.endPass();
  member passEncoder "endPass"
  let _ ← invoke env (.endPass passEncoder)
  -- device.queue.submit([commandEncoder.finish()]);
  let queue ← getProp env device "queue"
  member queue "submit"
  member commandEncoder "finish"
  let commandBuffer ← invoke env (.finish commandEncoder)
  let _ ← invoke env (.submit queue [commandBuffer])
  return ()

/-- The script: the declaration of `init`, then the statement `init();` (line 77), whose
promise nobody holds.  The run starts from the empty history. -/
def script (env : Env) : Run Unit :=
  init env []

/-- The names the script declares: the function `init` and the `const`s in its body. -/
def declaredNames : List String :=
  ["init", "canvas", "context", "adapter", "device", "pipeline", "commandEncoder",
    "renderPassDescriptor", "passEncoder"]

/-- The name of the method a call invokes. -/
def Call.method : Call → String
  | .getElementById _ _ => "getElementById"
  | .log _ _ => "log"
  | .getContext _ _ => "getContext"
  | .requestAdapter _ => "requestAdapter"
  | .requestDevice _ => "requestDevice"
  | .createShaderModule _ _ => "createShaderModule"
  | .createRenderPipeline _ _ => "createRenderPipeline"
  | .createCommandEncoder _ => "createCommandEncoder"
  | .getCurrentTexture _ => "getCurrentTexture"
  | .createView _ => "createView"
  | .beginRenderPass _ _ => "beginRenderPass"
  | .setPipeline _ _ => "setPipeline"
  | .setVertexBuffer _ _ _ => "setVertexBuffer"
  | .draw _ _ _ _ _ => "draw"
  | .endPass _ => "endPass"
  | .finish _ => "finish"
  | .submit _ _ => "submit"

/-- The calls whose result `init` goes on to read a property of: `canvas`, `context`,
the texture, `commandEncoder` and `passEncoder`. -/
def Call.resultDereferenced : Call → Bool
  | .getElementById _ _ => true
  | .getContext _ _ => true
  | .createCommandEncoder _ => true
  | .getCurrentTexture _ => true
  | .beginRenderPass _ _ => true
  | _ => false

/-- The calls that build or submit the command sequence: on the command encoder, on the
pass encoder and on the queue, and the creation of the command encoder. -/
def Call.commandOp : Call → Bool
  | .createCommandEncoder _ => true
  | .beginRenderPass _ _ => true
  | .setPipeline _ _ => true
  | .setVertexBuffer _ _ _ => true
  | .draw _ _ _ _ _ => true
  | .endPass _ => true
  | .finish _ => true
  | .submit _ _ => true
  | _ => false

/-- The calls on an existing encoder or on the queue. -/
def Call.onEncoder : Call → Bool
  | .createCommandEncoder _ => false
  | c => c.commandOp

/-! ## Observations of a run -/

/-- The calls made, in order. -/
def calls (tr : List Event) : List Call :=
  tr.filterMap fun e =>
    match e with
    | .call c => some c
    | _ => none

/-- The calls recorded on the encoders and the queue, in order. -/
def encoderCalls (tr : List Event) : List Call :=
  (calls tr).filter Call.onEncoder

/-- The command-buffer lists handed to `queue.submit`, in order. -/
def submissions (tr : List Event) : List (List Val) :=
  (calls tr).filterMap fun c =>
    match c with
    | .submit _ cbs => some cbs
    | _ => none

/-- The descriptors handed to `createRenderPipeline`, in order. -/
def pipelineDescriptors (tr : List Event) : List RenderPipelineDescriptor :=
  (calls tr).filterMap fun c =>
    match c with
    | .createRenderPipeline _ d => some d
    | _ => none

/-- The descriptors handed to `beginRenderPass`, in order. -/
def passDescriptors (tr : List Event) : List RenderPassDescriptor :=
  (calls tr).filterMap fun c =>
    match c with
    | .beginRenderPass _ d => some d
    | _ => none

/-- The values returned by the calls of the method of that name, in order. -/
def returned (method : String) (tr : List Event) : List Val :=
  tr.filterMap fun e =>
    match e with
    | .ret c v => if c.method = method then some v else none
    | _ => none

/-- Every event of the second list satisfies `R` of all the events before it, the first
list being what came before the second. -/
def EachAfter (R : List Event → Event → Prop) : List Event → List Event → Prop
  | _, [] => True
  | pre, e :: rest => R pre e ∧ EachAfter R (pre ++ [e]) rest

/-- The fulfilled awaits, in order: the promise awaited and the value it gave. -/
def settlements (tr : List Event) : List (Val × Val) :=
  tr.filterMap fun e =>
    match e with
    | .resumed p v => some (p, v)
    | _ => none

/-- The value is what an `await` of a promise returned by a call of the method gave. -/
def Resolved (method : String) (tr : List Event) (v : Val) : Prop :=
  ∃ p, p ∈ returned method tr ∧ (p, v) ∈ settlements tr

/-- What must have happened before an event: the adapter request resolved before a device
is requested of the adapter, both requests resolved before the pipeline is created on the
device, the pipeline returned before any command operation, and returned as the very
object that `setPipeline` binds. -/
def OrderRule (pre : List Event) : Event → Prop
  | .call (.requestDevice adapter) => Resolved "requestAdapter" pre adapter
  | .call (.createRenderPipeline device _) =>
    Resolved "requestDevice" pre device ∧ ∃ adapter, Resolved "requestAdapter" pre adapter
  | .call (.setPipeline _ pipeline) => pipeline ∈ returned "createRenderPipeline" pre
  | .call c => c.commandOp = true → returned "createRenderPipeline" pre ≠ []
  | _ => True

/-- The values a host hands to a run of `init`, in the order the script obtains them. -/
structure Answers where
  document : Val
  canvas : Val
  console1 : Val
  logged1 : Val
  context : Val
  console2 : Val
  logged2 : Val
  console3 : Val
  navigator1 : Val
  logged3 : Val
  console4 : Val
  navigator2 : Val
  gpu1 : Val
  logged4 : Val
  navigator3 : Val
  gpu2 : Val
  adapterPromise : Val
  adapter : Val
  devicePromise : Val
  device : Val
  vertexModule : Val
  fragmentModule : Val
  pipeline : Val
  commandEncoder : Val
  texture : Val
  view : Val
  passEncoder : Val
  bound : Val
  vertexBuffer : Val
  buffered : Val
  drawn : Val
  ended : Val
  queue : Val
  commandBuffer : Val
  submitted : Val

/-- The events of a run of `init` in which nothing fails, given the values handed to it. -/
def happyTrace (a : Answers) : List Event :=
  [ .call (.getElementById a.document "canvas"),
    .ret (.getElementById a.document "canvas") a.canvas,
    .call (.log a.console1 a.canvas),
    .ret (.log a.console1 a.canvas) a.logged1,
    .call (.getContext a.canvas "webgpu"),
    .ret (.getContext a.canvas "webgpu") a.context,
    .call (.log a.console2 a.context),
    .ret (.log a.console2 a.context) a.logged2,
    .call (.log a.console3 a.navigator1),
    .ret (.log a.console3 a.navigator1) a.logged3,
    .read a.navigator2 "gpu" a.gpu1,
    .call (.log a.console4 a.gpu1),
    .ret (.log a.console4 a.gpu1) a.logged4,
    .read a.navigator3 "gpu" a.gpu2,
    .call (.requestAdapter a.gpu2),
    .ret (.requestAdapter a.gpu2) a.adapterPromise,
    .resumed a.adapterPromise a.adapter,
    .call (.requestDevice a.adapter),
    .ret (.requestDevice a.adapter) a.devicePromise,
    .resumed a.devicePromise a.device,
    .call (.createShaderModule a.device ⟨vertexCode⟩),
    .ret (.createShaderModule a.device ⟨vertexCode⟩) a.vertexModule,
    .call (.createShaderModule a.device ⟨fragmentCode⟩),
    .ret (.createShaderModule a.device ⟨fragmentCode⟩) a.fragmentModule,
    .call (.createRenderPipeline a.device (pipelineDescriptor a.vertexModule a.fragmentModule)),
    .ret (.createRenderPipeline a.device (pipelineDescriptor a.vertexModule a.fragmentModule))
      a.pipeline,
    .call (.createCommandEncoder a.device),
    .ret (.createCommandEncoder a.device) a.commandEncoder,
    .call (.getCurrentTexture a.context),
    .ret (.getCurrentTexture a.context) a.texture,
    .call (.createView a.texture),
    .ret (.createView a.texture) a.view,
    .call (.beginRenderPass a.commandEncoder (renderPassDescriptor a.view)),
    .ret (.beginRenderPass a.commandEncoder (renderPassDescriptor a.view)) a.passEncoder,
    .call (.setPipeline a.passEncoder a.pipeline),
    .ret (.setPipeline a.passEncoder a.pipeline) a.bound,
    .call (.setVertexBuffer a.passEncoder 0 a.vertexBuffer),
    .ret (.setVertexBuffer a.passEncoder 0 a.vertexBuffer) a.buffered,
    .call (.draw a.passEncoder 3 1 0 0),
    .ret (.draw a.passEncoder 3 1 0 0) a.drawn,
    .call (.endPass a.passEncoder),
    .ret (.endPass a.passEncoder) a.ended,
    .read a.device "queue" a.queue,
    .call (.finish a.commandEncoder),
    .ret (.finish a.commandEncoder) a.commandBuffer,
    .call (.submit a.queue [a.commandBuffer]),
    .ret (.submit a.queue [a.commandBuffer]) a.submitted ]

/-! ## Hosts -/

/-- The host binds the global name, whatever happened before. -/
def Env.Binds (env : Env) (name : String) : Prop :=
  ∀ tr, ∃ v, env.global tr name = some v

/-- The host has no global binding of the name. -/
def Env.Unbound (env : Env) (name : String) : Prop :=
  ∀ tr, env.global tr name = none

/-- A page with a canvas and a GPU that answers: `document`, `console` and `navigator`
are objects, every property read and every `await` yields an object, every call returns,
and returns an object where `init` reads a property of the result. -/
structure Env.Responsive (env : Env) : Prop where
  global : ∀ tr, ∀ name ∈ ["document", "console", "navigator"],
    ∃ h, env.global tr name = some (.obj h)
  get : ∀ tr o prop, ∃ h, env.get tr o prop = .returns (.obj h)
  call : ∀ tr c, ∃ v, env.call tr c = .returns v
  object : ∀ tr c, c.resultDereferenced = true → ∃ h, env.call tr c = .returns (.obj h)
  await : ∀ tr p, ∃ h, env.await tr p = .fulfilled (.obj h)

/-- A host in which everything is there and answers: each call returns a fresh object. -/
def okEnv : Env where
  global := fun _ name =>
    if name = "document" then some (.obj 1)
    else if name = "console" then some (.obj 2)
    else if name = "navigator" then some (.obj 3)
    else if name = "vertexBuffer" then some (.obj 4)
    else none
  get := fun _ _ prop => if prop = "gpu" then .returns (.obj 5) else .returns (.obj 6)
  call := fun tr _ => .returns (.obj (100 + tr.length))
  await := fun tr _ => .fulfilled (.obj (100 + tr.length))

/-- The page as the script meets it: a canvas, a GPU that answers, and no global named
`vertexBuffer`. -/
def bareEnv : Env where
  global := fun _ name =>
    if name = "document" then some (.obj 1)
    else if name = "console" then some (.obj 2)
    else if name = "navigator" then some (.obj 3)
    else none
  get := okEnv.get
  call := okEnv.call
  await := okEnv.await

/-- A page without the canvas element: `getElementById` answers `null`, `console.log`
answers `undefined`. -/
def noCanvasEnv : Env where
  global := okEnv.global
  get := okEnv.get
  call := fun tr c =>
    match c with
    | .getElementById _ _ => .returns .null
    | .log _ _ => .returns .undefined
    | _ => okEnv.call tr c
  await := okEnv.await

/-! ## The shaders -/

/-- The WGSL types the shaders use. -/
inductive WgslType
  | f32
  | vec2f32
  | vec3f32
  | vec4f32
  deriving DecidableEq, Repr

/-- The number of scalar components. -/
def WgslType.components : WgslType → Nat
  | .f32 => 1
  | .vec2f32 => 2
  | .vec3f32 => 3
  | .vec4f32 => 4

/-- The type as written. -/
def WgslType.render : WgslType → String
  | .f32 => "f32"
  | .vec2f32 => "vec2<f32>"
  | .vec3f32 => "vec3<f32>"
  | .vec4f32 => "vec4<f32>"

/-- The attributes `[[stage(..)]]`, `[[location(..)]]`, `[[builtin(..)]]`. -/
inductive Attr
  | stage (name : String)
  | location (n : Nat)
  | builtin (name : String)
  deriving DecidableEq, Repr

/-- The attribute as written. -/
def Attr.render : Attr → String
  | .stage s => "[[stage(" ++ s ++ ")]]"
  | .location n => "[[location(" ++ Nat.repr n ++ ")]]"
  | .builtin s => "[[builtin(" ++ s ++ ")]]"

/-- Expressions: a name, a decimal literal `mantissa / 10 ^ decimals` written with
`decimals` digits after the point, a value constructor `T(args)`. -/
inductive Expression
  | ident (name : String)
  | float (mantissa : Nat) (decimals : Nat)
  | construct (t : WgslType) (args : List Expression)
  deriving Repr

/-- Zeros in front, up to the width. -/
def padLeft (width : Nat) (s : String) : String :=
  String.mk (List.replicate (width - s.length) '0') ++ s

mutual
/-- The expression as written. -/
def Expression.render : Expression → String
  | .ident x => x
  | .float m d => Nat.repr (m / 10 ^ d) ++ "." ++ padLeft d (Nat.repr (m % 10 ^ d))
  | .construct t args => t.render ++ "(" ++ Expression.renderArgs args ++ ")"
/-- The arguments as written, separated by commas. -/
def Expression.renderArgs : List Expression → String
  | [] => ""
  | [e] => e.render
  | e :: es => e.render ++ ", " ++ Expression.renderArgs es
end

mutual
/-- The components of the value of an expression, over any carrier of scalars that
interprets decimal literals.  A constructor concatenates the components of its arguments
and must end up with as many as its type has. -/
def Expression.eval {α : Type} [OfScientific α] (ρ : String → Option (List α)) :
    Expression → Option (List α)
  | .ident x => ρ x
  | .float m d => some [OfScientific.ofScientific m true d]
  | .construct t args =>
    match Expression.evalArgs ρ args with
    | some cs => if cs.length = t.components then some cs else none
    | none => none
/-- The components of the arguments, concatenated. -/
def Expression.evalArgs {α : Type} [OfScientific α] (ρ : String → Option (List α)) :
    List Expression → Option (List α)
  | [] => some []
  | e :: es =>
    match e.eval ρ, Expression.evalArgs ρ es with
    | some c, some cs => some (c ++ cs)
    | _, _ => none
end

/-- A parameter `[[attr]] name : type`. -/
structure Param where
  attr : Attr
  name : String
  type : WgslType
  deriving DecidableEq, Repr

/-- An entry point `[[stage]] fn name(params) -> [[attr]] type { return body; }`. -/
structure FnDecl where
  stage : Attr
  name : String
  params : List Param
  retAttr : Attr
  retType : WgslType
  body : Expression

/-- The parameter as written. -/
def Param.render (p : Param) : String :=
  p.attr.render ++ " " ++ p.name ++ " : " ++ p.type.render

/-- The parameters as written, separated by commas. -/
def renderParams : List Param → String
  | [] => ""
  | [p] => p.render
  | p :: ps => p.render ++ ", " ++ renderParams ps

/-- The entry point as the script writes it, with the indentation of its template
literals. -/
def FnDecl.render (f : FnDecl) : String :=
  "\n          " ++ f.stage.render ++ "\n          fn " ++ f.name ++ "(" ++
    renderParams f.params ++ ") -> " ++ f.retAttr.render ++ " " ++ f.retType.render ++
    " \x7b\n            return " ++ f.body.render ++ ";\n          \x7d\n        "

/-- The value a name has in the body: the data at the location of the parameter of that
name, when it has as many components as the parameter's type. -/
def bindParams {α : Type} (inputs : Nat → Option (List α)) : List Param → String → Option (List α)
  | [], _ => none
  | p :: ps, x =>
    if p.name = x then
      match p.attr with
      | .location n =>
        match inputs n with
        | some cs => if cs.length = p.type.components then some cs else none
        | none => none
      | _ => none
    else bindParams inputs ps x

/-- One invocation of the entry point on the data at each input location: the components
of the returned value. -/
def FnDecl.run {α : Type} [OfScientific α] (f : FnDecl) (inputs : Nat → Option (List α)) :
    Option (List α) :=
  match f.body.eval (bindParams inputs f.params) with
  | some cs => if cs.length = f.retType.components then some cs else none
  | none => none

/-- The inputs the entry point declares: location and type. -/
def FnDecl.inputs (f : FnDecl) : List (Nat × WgslType) :=
  f.params.filterMap fun p =>
    match p.attr with
    | .location n => some (n, p.type)
    | _ => none

/-- The outputs the entry point declares: location and type. -/
def FnDecl.outputs (f : FnDecl) : List (Nat × WgslType) :=
  match f.retAttr with
  | .location n => [(n, f.retType)]
  | _ => []

/-- The vertex stage (lines 19 to 22). -/
def vertexShader : FnDecl where
  stage := .stage "vertex"
  name := "main"
  params := [{ attr := .location 0, name := "position", type := .vec2f32 }]
  retAttr := .builtin "position"
  retType := .vec4f32
  body := .construct .vec4f32 [.ident "position", .float 0 1, .float 10 1]

/-- The fragment stage (lines 38 to 41). -/
def fragmentShader : FnDecl where
  stage := .stage "fragment"
  name := "main"
  params := []
  retAttr := .location 0
  retType := .vec4f32
  body := .construct .vec4f32 [.float 10 1, .float 0 1, .float 0 1, .float 10 1]

/-- Modelled from the spec: the byte size of a vertex format, a table of the GPU interface
that the repository does not hold; the spec gives `float32x2` as two 32-bit floats, so 4
bytes for each component of a 32-bit float format. -/
def formatByteSize : String → Option Nat
  | "float32" => some 4
  | "float32x2" => some 8
  | "float32x3" => some 12
  | "float32x4" => some 16
  | _ => none

/-- Modelled from the spec: the shader type a vertex format feeds, a table of the GPU
interface that the repository does not hold; the spec gives `float32x2` as the format of a
2-component floating-point attribute. -/
def formatType : String → Option WgslType
  | "float32" => some .f32
  | "float32x2" => some .vec2f32
  | "float32x3" => some .vec3f32
  | "float32x4" => some .vec4f32
  | _ => none

/-- The attributes of all the vertex buffer layouts of a descriptor. -/
def RenderPipelineDescriptor.attributes (d : RenderPipelineDescriptor) : List VertexAttribute :=
  d.vertex.buffers.flatMap fun b => b.attributes

/-! ## How the pieces of script compose -/

section Steps
variable {α : Type}

theorem resolve_bind (env : Env) (name : String) (f : Val → Script α) (tr : List Event) :
    (resolve env name >>= f) tr =
      match env.global tr name with
      | some v => f v tr
      | none => ⟨tr, .threw (.referenceError name)⟩ := by
  show Script.bind _ _ _ = _
  unfold Script.bind resolve
  cases env.global tr name <;> rfl

theorem member_bind (o : Val) (prop : String) (f : Unit → Script α) (tr : List Event) :
    (member o prop >>= f) tr =
      match o with
      | .null => ⟨tr, .threw (.typeError .null prop)⟩
      | .undefined => ⟨tr, .threw (.typeError .undefined prop)⟩
      | .obj _ => f () tr := by
  show Script.bind _ _ _ = _
  unfold Script.bind member
  cases o <;> rfl

theorem getProp_bind (env : Env) (o : Val) (prop : String) (f : Val → Script α)
    (tr : List Event) :
    (getProp env o prop >>= f) tr =
      match o with
      | .null => ⟨tr, .threw (.typeError .null prop)⟩
      | .undefined => ⟨tr, .threw (.typeError .undefined prop)⟩
      | .obj h =>
        match env.get tr (.obj h) prop with
        | .returns v => f v (tr ++ [.read (.obj h) prop v])
        | .throws e => ⟨tr, .threw (.host e)⟩ := by
  show Script.bind _ _ _ = _
  unfold Script.bind getProp
  cases o with
  | null => rfl
  | undefined => rfl
  | obj h => simp only []; cases env.get tr (.obj h) prop <;> rfl

theorem invoke_bind (env : Env) (c : Call) (f : Val → Script α) (tr : List Event) :
    (invoke env c >>= f) tr =
      match env.call tr c with
      | .returns v => f v (tr ++ [.call c, .ret c v])
      | .throws e => ⟨tr ++ [.call c], .threw (.host e)⟩ := by
  show Script.bind _ _ _ = _
  unfold Script.bind invoke
  cases env.call tr c <;> rfl

theorem await_bind (env : Env) (p : Val) (f : Val → Script α) (tr : List Event) :
    (await env p >>= f) tr =
      match env.await tr p with
      | .fulfilled v => f v (tr ++ [.resumed p v])
      | .rejected e => ⟨tr, .threw (.host e)⟩
      | .pending => ⟨tr, .stalled⟩ := by
  show Script.bind _ _ _ = _
  unfold Script.bind await
  cases env.await tr p <;> rfl

theorem pure_apply (a : α) (tr : List Event) :
    (Pure.pure a : Script α) tr = ⟨tr, .done a⟩ :=
  rfl

end Steps

/-! ## Rules on what came before -/

theorem eachAfter_split (R : List Event → Event → Prop) :
    ∀ (tr pre : List Event), EachAfter R pre tr →
      ∀ (a : List Event) (e : Event) (b : List Event), tr = a ++ e :: b → R (pre ++ a) e := by
  intro tr
  induction tr with
  | nil =>
    intro pre _ a e b hsplit
    simp at hsplit
  | cons x rest ih =>
    intro pre hall a e b hsplit
    obtain ⟨hx, hrest⟩ := hall
    cases a with
    | nil =>
      simp only [List.nil_append, List.cons.injEq] at hsplit
      obtain ⟨rfl, _⟩ := hsplit
      simpa using hx
    | cons y a2 =>
      simp only [List.cons_append, List.cons.injEq] at hsplit
      obtain ⟨rfl, hsplit2⟩ := hsplit
      have := ih (pre ++ [x]) hrest a2 e b hsplit2
      simpa using this

/-! ## Every run, whatever the host -/

set_option maxRecDepth 100000 in
theorem init_shape (env : Env) :
    ∃ a : Answers,
      (script env).trace = (happyTrace a).take (script env).trace.length ∧
      ((script env).outcome = .done () → (script env).trace = happyTrace a) := by
  unfold script init
  simp only [resolve_bind, member_bind, getProp_bind, invoke_bind, await_bind, pure_apply,
    List.nil_append, List.cons_append, List.append_assoc]
  repeat' (split <;> try dsimp only)
  all_goals
    refine' ⟨⟨_, _, _, _, _, _, _, _, _, _, _, _, _, _, _, _, _, _, _, _, _, _, _, _, _, _, _,
      _, _, _, _, _, _, _, _⟩, rfl, fun h => _⟩
  all_goals first
    | rfl
    | cases h
    | exact Val.undefined

/-! ## Hosts that answer -/

section Responsive
variable {env : Env}

theorem Env.Responsive.global_ne_none (h : env.Responsive) (tr : List Event) (name : String)
    (hn : name ∈ ["document", "console", "navigator"]) : env.global tr name ≠ none := by
  obtain ⟨o, ho⟩ := h.global tr name hn
  simp [ho]

theorem Env.Responsive.global_ne_null (h : env.Responsive) (tr : List Event) (name : String)
    (hn : name ∈ ["document", "console", "navigator"]) : env.global tr name ≠ some .null := by
  obtain ⟨o, ho⟩ := h.global tr name hn
  simp [ho]

theorem Env.Responsive.global_ne_undefined (h : env.Responsive) (tr : List Event)
    (name : String) (hn : name ∈ ["document", "console", "navigator"]) :
    env.global tr name ≠ some .undefined := by
  obtain ⟨o, ho⟩ := h.global tr name hn
  simp [ho]

theorem Env.Responsive.get_ne_throws (h : env.Responsive) (tr : List Event) (o : Val)
    (prop : String) (e : Val) : env.get tr o prop ≠ .throws e := by
  obtain ⟨v, hv⟩ := h.get tr o prop
  simp [hv]

theorem Env.Responsive.get_ne_null (h : env.Responsive) (tr : List Event) (o : Val)
    (prop : String) : env.get tr o prop ≠ .returns .null := by
  obtain ⟨v, hv⟩ := h.get tr o prop
  simp [hv]

theorem Env.Responsive.get_ne_undefined (h : env.Responsive) (tr : List Event) (o : Val)
    (prop : String) : env.get tr o prop ≠ .returns .undefined := by
  obtain ⟨v, hv⟩ := h.get tr o prop
  simp [hv]

theorem Env.Responsive.call_ne_throws (h : env.Responsive) (tr : List Event) (c : Call)
    (e : Val) : env.call tr c ≠ .throws e := by
  obtain ⟨v, hv⟩ := h.call tr c
  simp [hv]

theorem Env.Responsive.call_ne_null (h : env.Responsive) (tr : List Event) (c : Call)
    (hc : c.resultDereferenced = true) : env.call tr c ≠ .returns .null := by
  obtain ⟨v, hv⟩ := h.object tr c hc
  simp [hv]

theorem Env.Responsive.call_ne_undefined (h : env.Responsive) (tr : List Event) (c : Call)
    (hc : c.resultDereferenced = true) : env.call tr c ≠ .returns .undefined := by
  obtain ⟨v, hv⟩ := h.object tr c hc
  simp [hv]

theorem Env.Responsive.await_ne_rejected (h : env.Responsive) (tr : List Event) (p e : Val) :
    env.await tr p ≠ .rejected e := by
  obtain ⟨v, hv⟩ := h.await tr p
  simp [hv]

theorem Env.Responsive.await_ne_pending (h : env.Responsive) (tr : List Event) (p : Val) :
    env.await tr p ≠ .pending := by
  obtain ⟨v, hv⟩ := h.await tr p
  simp [hv]

theorem Env.Responsive.await_ne_null (h : env.Responsive) (tr : List Event) (p : Val) :
    env.await tr p ≠ .fulfilled .null := by
  obtain ⟨v, hv⟩ := h.await tr p
  simp [hv]

theorem Env.Responsive.await_ne_undefined (h : env.Responsive) (tr : List Event) (p : Val) :
    env.await tr p ≠ .fulfilled .undefined := by
  obtain ⟨v, hv⟩ := h.await tr p
  simp [hv]

end Responsive

set_option maxRecDepth 100000 in
set_option maxHeartbeats 4000000 in
theorem init_responsive (env : Env) (h : env.Responsive) :
    ∃ a : Answers,
      ((script env).trace = (happyTrace a).take 36 ∧
        (script env).outcome = .threw (.referenceError "vertexBuffer") ∧
        ∃ tr, env.global tr "vertexBuffer" = none) ∨
      ((script env).trace = happyTrace a ∧
        (script env).outcome = .done () ∧
        ∃ tr, env.global tr "vertexBuffer" = some a.vertexBuffer) := by
  have g1 := h.global_ne_none
  have g2 := h.global_ne_null
  have g3 := h.global_ne_undefined
  have p1 := h.get_ne_throws
  have p2 := h.get_ne_null
  have p3 := h.get_ne_undefined
  have c1 := h.call_ne_throws
  have c2 := h.call_ne_null
  have c3 := h.call_ne_undefined
  have w1 := h.await_ne_rejected
  have w2 := h.await_ne_pending
  have w3 := h.await_ne_null
  have w4 := h.await_ne_undefined
  clear h
  unfold script init
  simp only [resolve_bind, member_bind, getProp_bind, invoke_bind, await_bind, pure_apply,
    List.nil_append, List.cons_append, List.append_assoc]
  repeat' (split <;> (try dsimp only) <;> try (first
    | exact absurd (by assumption) (c1 _ _ _)
    | exact absurd (by assumption) (c2 _ _ (by rfl))
    | exact absurd (by assumption) (c3 _ _ (by rfl))
    | exact absurd (by assumption) (g1 _ _ (by decide))
    | exact absurd (by assumption) (g2 _ _ (by decide))
    | exact absurd (by assumption) (g3 _ _ (by decide))
    | exact absurd (by assumption) (p1 _ _ _ _)
    | exact absurd (by assumption) (p2 _ _ _)
    | exact absurd (by assumption) (p3 _ _ _)
    | exact absurd (by assumption) (w1 _ _ _)
    | exact absurd (by assumption) (w2 _ _)
    | exact absurd (by assumption) (w3 _ _)
    | exact absurd (by assumption) (w4 _ _)))
  all_goals first
    | (refine' ⟨⟨_, _, _, _, _, _, _, _, _, _, _, _, _, _, _, _, _, _, _, _, _, _, _, _, _, _,
        _, _, _, _, _, _, _, _, _⟩, Or.inl ⟨rfl, rfl, _, by assumption⟩⟩ <;>
        exact Val.undefined)
    | (refine' ⟨⟨_, _, _, _, _, _, _, _, _, _, _, _, _, _, _, _, _, _, _, _, _, _, _, _, _, _,
        _, _, _, _, _, _, _, _, _⟩, Or.inr ⟨rfl, rfl, _, by assumption⟩⟩)

/-! ## The full run -/

theorem eachAfter_take (R : List Event → Event → Prop) :
    ∀ (l pre : List Event) (n : Nat), EachAfter R pre l → EachAfter R pre (l.take n) := by
  intro l
  induction l with
  | nil =>
    intro pre n _
    simp [EachAfter]
  | cons x l ih =>
    intro pre n hall
    cases n with
    | zero => simp [EachAfter]
    | succ n => exact ⟨hall.1, ih _ n hall.2⟩

set_option maxRecDepth 100000 in
theorem happyTrace_orderRule (a : Answers) : EachAfter OrderRule [] (happyTrace a) := by
  simp only [happyTrace, EachAfter, OrderRule, List.nil_append, List.cons_append, and_self,
    and_true, true_and]
  simp [Resolved, returned, settlements, Call.method, Call.commandOp]

theorem calls_take (l : List Event) (n : Nat) : (calls (l.take n)).Sublist (calls l) :=
  (List.take_sublist n l).filterMap _

theorem pipelineDescriptors_take (l : List Event) (n : Nat) :
    (pipelineDescriptors (l.take n)).Sublist (pipelineDescriptors l) :=
  (calls_take l n).filterMap _

theorem passDescriptors_take (l : List Event) (n : Nat) :
    (passDescriptors (l.take n)).Sublist (passDescriptors l) :=
  (calls_take l n).filterMap _

theorem returned_take (method : String) (l : List Event) (n : Nat) :
    (returned method (l.take n)).Sublist (returned method l) :=
  (List.take_sublist n l).filterMap _

theorem returned_pipeline_happyTrace (a : Answers) :
    returned "createRenderPipeline" (happyTrace a) = [a.pipeline] :=
  rfl

theorem init_one_pipeline_returned (env : Env) :
    (returned "createRenderPipeline" (script env).trace).length ≤ 1 := by
  obtain ⟨a, hshape, _⟩ := init_shape env
  rw [hshape]
  have hlen :=
    (returned_take "createRenderPipeline" (happyTrace a) (script env).trace.length).length_le
  rw [returned_pipeline_happyTrace] at hlen
  simpa using hlen

theorem pipelineDescriptors_happyTrace (a : Answers) :
    pipelineDescriptors (happyTrace a) = [pipelineDescriptor a.vertexModule a.fragmentModule] :=
  rfl

theorem passDescriptors_happyTrace (a : Answers) :
    passDescriptors (happyTrace a) = [renderPassDescriptor a.view] :=
  rfl

theorem init_pipelineDescriptor (env : Env) (d : RenderPipelineDescriptor)
    (h : d ∈ pipelineDescriptors (script env).trace) :
    ∃ vertexModule fragmentModule, d = pipelineDescriptor vertexModule fragmentModule := by
  obtain ⟨a, hshape, _⟩ := init_shape env
  rw [hshape] at h
  have hmem := (pipelineDescriptors_take _ _).subset h
  rw [pipelineDescriptors_happyTrace, List.mem_singleton] at hmem
  exact ⟨_, _, hmem⟩

theorem init_passDescriptor (env : Env) (r : RenderPassDescriptor)
    (h : r ∈ passDescriptors (script env).trace) :
    ∃ view, r = renderPassDescriptor view := by
  obtain ⟨a, hshape, _⟩ := init_shape env
  rw [hshape] at h
  have hmem := (passDescriptors_take _ _).subset h
  rw [passDescriptors_happyTrace, List.mem_singleton] at hmem
  exact ⟨_, hmem⟩

theorem init_one_pipeline (env : Env) : (pipelineDescriptors (script env).trace).length ≤ 1 := by
  obtain ⟨a, hshape, _⟩ := init_shape env
  rw [hshape]
  have hlen := (pipelineDescriptors_take (happyTrace a) (script env).trace.length).length_le
  rw [pipelineDescriptors_happyTrace] at hlen
  simpa using hlen

theorem init_orderRule (env : Env) (pre post : List Event) (e : Event)
    (h : (script env).trace = pre ++ e :: post) : OrderRule pre e := by
  obtain ⟨a, hshape, _⟩ := init_shape env
  have hall : EachAfter OrderRule [] (script env).trace := by
    rw [hshape]
    exact eachAfter_take OrderRule _ _ _ (happyTrace_orderRule a)
  have hrule := eachAfter_split OrderRule _ _ hall pre e post h
  simpa using hrule

/-- A host that answers and binds `vertexBuffer` lets `init` complete. -/
theorem init_done_of_responsive (env : Env) (h : env.Responsive)
    (hvb : env.Binds "vertexBuffer") : (script env).outcome = .done () := by
  obtain ⟨a, hstop | hfull⟩ := init_responsive env h
  · obtain ⟨_, _, tr, hnone⟩ := hstop
    obtain ⟨v, hv⟩ := hvb tr
    rw [hv] at hnone
    cases hnone
  · exact hfull.2.1

theorem okEnv_responsive : okEnv.Responsive where
  global := by
    intro tr name hn
    simp only [List.mem_cons, List.mem_singleton, List.not_mem_nil, or_false] at hn
    rcases hn with rfl | rfl | rfl
    · exact ⟨1, rfl⟩
    · exact ⟨2, rfl⟩
    · exact ⟨3, rfl⟩
  get := by
    intro tr o prop
    by_cases hp : prop = "gpu"
    · exact ⟨5, by simp [okEnv, hp]⟩
    · exact ⟨6, by simp [okEnv, hp]⟩
  call := fun tr _ => ⟨_, rfl⟩
  object := fun tr _ _ => ⟨_, rfl⟩
  await := fun tr _ => ⟨_, rfl⟩

theorem bareEnv_responsive : bareEnv.Responsive where
  global := by
    intro tr name hn
    simp only [List.mem_cons, List.mem_singleton, List.not_mem_nil, or_false] at hn
    rcases hn with rfl | rfl | rfl
    · exact ⟨1, rfl⟩
    · exact ⟨2, rfl⟩
    · exact ⟨3, rfl⟩
  get := okEnv_responsive.get
  call := okEnv_responsive.call
  object := okEnv_responsive.object
  await := okEnv_responsive.await

theorem bareEnv_unbound : bareEnv.Unbound "vertexBuffer" := by
  intro tr
  rfl

theorem vertexShader_render : vertexShader.render = vertexCode := by
  rfl

theorem fragmentShader_render : fragmentShader.render = fragmentCode := by
  rfl

/-! ## The claims -/

/-- C1: a page with a canvas, a graphics context and a GPU on which every call succeeds is
expected to see exactly one queue submission holding one draw of (3, 1, 0, 0).  On such a
page that has no global named `vertexBuffer` the run of `init` ends in a ReferenceError on
that name, after `setPipeline` and before any `draw`, and nothing is submitted. -/
theorem init_bareEnv_submits_nothing :
    bareEnv.Responsive ∧
    (script bareEnv).outcome = .threw (.referenceError "vertexBuffer") ∧
    submissions (script bareEnv).trace = [] ∧
    (encoderCalls (script bareEnv).trace).map Call.method = ["beginRenderPass", "setPipeline"] :=
  ⟨bareEnv_responsive, by decide, by decide, by decide⟩

/-- C2: in a run of `init` that completes (every identifier resolved, every call returned,
every `await` resumed), the calls recorded on the encoders and the queue are exactly, in
this order: `beginRenderPass`, `setPipeline` with the pipeline that the one
`createRenderPipeline` call returned before any of them, `setVertexBuffer` at slot 0,
`draw(3, 1, 0, 0)`, `endPass`, then `finish` on the command encoder and `submit` of the
one command buffer that `finish` returned. -/
theorem init_done_commands (env : Env) (h : (script env).outcome = .done ()) :
    ∃ commandEncoder view passEncoder pipeline vertexBuffer queue commandBuffer,
      encoderCalls (script env).trace =
        [ .beginRenderPass commandEncoder (renderPassDescriptor view),
          .setPipeline passEncoder pipeline,
          .setVertexBuffer passEncoder 0 vertexBuffer,
          .draw passEncoder 3 1 0 0,
          .endPass passEncoder,
          .finish commandEncoder,
          .submit queue [commandBuffer] ] ∧
      returned "createRenderPipeline" (script env).trace = [pipeline] ∧
      (∃ n, returned "createRenderPipeline" ((script env).trace.take n) = [pipeline] ∧
        encoderCalls ((script env).trace.take n) = []) ∧
      returned "beginRenderPass" (script env).trace = [passEncoder] ∧
      returned "finish" (script env).trace = [commandBuffer] ∧
      submissions (script env).trace = [[commandBuffer]] := by
  obtain ⟨a, _, hfull⟩ := init_shape env
  rw [hfull h]
  exact ⟨a.commandEncoder, a.view, a.passEncoder, a.pipeline, a.vertexBuffer, a.queue,
    a.commandBuffer, rfl, rfl, ⟨32, rfl, rfl⟩, rfl, rfl, rfl⟩

theorem init_done_commands_witness :
    (script okEnv).outcome = .done () ∧
    ∃ commandEncoder view passEncoder pipeline vertexBuffer queue commandBuffer,
      encoderCalls (script okEnv).trace =
        [ .beginRenderPass commandEncoder (renderPassDescriptor view),
          .setPipeline passEncoder pipeline,
          .setVertexBuffer passEncoder 0 vertexBuffer,
          .draw passEncoder 3 1 0 0,
          .endPass passEncoder,
          .finish commandEncoder,
          .submit queue [commandBuffer] ] ∧
      returned "createRenderPipeline" (script okEnv).trace = [pipeline] ∧
      (∃ n, returned "createRenderPipeline" ((script okEnv).trace.take n) = [pipeline] ∧
        encoderCalls ((script okEnv).trace.take n) = []) ∧
      returned "beginRenderPass" (script okEnv).trace = [passEncoder] ∧
      returned "finish" (script okEnv).trace = [commandBuffer] ∧
      submissions (script okEnv).trace = [[commandBuffer]] :=
  ⟨by decide, init_done_commands okEnv (by decide)⟩

/-- C3: every descriptor that a run of `init` hands to `createRenderPipeline` is the same
object literal up to the two shader-module handles, whatever the host; it has exactly one
vertex buffer layout, of `arrayStride` 8 (written `2 * 4`), with exactly one attribute, at
`shaderLocation` 0 and `offset` 0, of format `float32x2`. -/
theorem init_vertex_layout (env : Env) (d : RenderPipelineDescriptor)
    (h : d ∈ pipelineDescriptors (script env).trace) :
    d = pipelineDescriptor d.vertex.module d.fragment.module ∧
    d.vertex.buffers =
      [{ arrayStride := 8
         attributes := [{ shaderLocation := 0, offset := 0, format := "float32x2" }] }] := by
  obtain ⟨vm, fm, rfl⟩ := init_pipelineDescriptor env d h
  exact ⟨rfl, rfl⟩

theorem init_vertex_layout_witness :
    pipelineDescriptor (.obj 120) (.obj 122) ∈ pipelineDescriptors (script okEnv).trace ∧
    (pipelineDescriptor (.obj 120) (.obj 122)).vertex.buffers =
      [{ arrayStride := 8
         attributes := [{ shaderLocation := 0, offset := 0, format := "float32x2" }] }] :=
  ⟨by decide,
    (init_vertex_layout okEnv (pipelineDescriptor (.obj 120) (.obj 122)) (by decide)).2⟩

/-- C4: every descriptor that a run of `init` hands to `createRenderPipeline` has the
primitive configuration `triangle-list`, front face `ccw`, cull mode `none`, and a
fragment stage with exactly one colour target. -/
theorem init_primitive (env : Env) (d : RenderPipelineDescriptor)
    (h : d ∈ pipelineDescriptors (script env).trace) :
    d.primitive = { topology := "triangle-list", frontFace := "ccw", cullMode := "none" } ∧
    d.fragment.targets.length = 1 ∧
    d.fragment.targets = [{ format := "bgra8unorm" }] := by
  obtain ⟨vm, fm, rfl⟩ := init_pipelineDescriptor env d h
  exact ⟨rfl, rfl, rfl⟩

theorem init_primitive_witness :
    pipelineDescriptor (.obj 120) (.obj 122) ∈ pipelineDescriptors (script okEnv).trace ∧
    (pipelineDescriptor (.obj 120) (.obj 122)).primitive =
      { topology := "triangle-list", frontFace := "ccw", cullMode := "none" } :=
  ⟨by decide,
    (init_primitive okEnv (pipelineDescriptor (.obj 120) (.obj 122)) (by decide)).1⟩

/-- C5: the vertex stage, whose text is the one the script passes, has the entry point
`main` with exactly one parameter, at location 0, of type `vec2<f32>`; it returns a
`vec4<f32>` as the builtin `position`, and on every input `(x, y)` the returned components
are `x`, `y`, the literal `0.0` and the literal `1.0` (over the rationals: `x`, `y`, 0, 1). -/
theorem vertexShader_main :
    vertexShader.render = vertexCode ∧
    vertexShader.stage = .stage "vertex" ∧
    vertexShader.name = "main" ∧
    vertexShader.params = [{ attr := .location 0, name := "position", type := .vec2f32 }] ∧
    vertexShader.inputs = [(0, .vec2f32)] ∧
    vertexShader.retAttr = .builtin "position" ∧
    vertexShader.retType = .vec4f32 ∧
    (∀ (α : Type) [OfScientific α] (x y : α),
      vertexShader.run (fun n => if n = 0 then some [x, y] else none) =
        some [x, y, 0.0, 1.0]) ∧
    (∀ x y : ℚ,
      vertexShader.run (fun n => if n = 0 then some [x, y] else none) = some [x, y, 0, 1]) := by
  refine ⟨rfl, rfl, rfl, rfl, rfl, rfl, rfl, fun α _ x y => rfl, fun x y => ?_⟩
  have h0 : (0.0 : ℚ) = 0 := by norm_num
  have h1 : (1.0 : ℚ) = 1 := by norm_num
  have hrun : vertexShader.run (fun n => if n = 0 then some [x, y] else none) =
      some [x, y, (0.0 : ℚ), (1.0 : ℚ)] := rfl
  rw [hrun, h0, h1]

/-- C6: the fragment stage, whose text is the one the script passes, has the entry point
`main` with no parameter and one output, at location 0, of type `vec4<f32>`; whatever the
data at the input locations, the returned components are the literals `1.0`, `0.0`, `0.0`,
`1.0` (over the rationals: 1, 0, 0, 1). -/
theorem fragmentShader_main :
    fragmentShader.render = fragmentCode ∧
    fragmentShader.stage = .stage "fragment" ∧
    fragmentShader.name = "main" ∧
    fragmentShader.params = [] ∧
    fragmentShader.inputs = [] ∧
    fragmentShader.outputs = [(0, .vec4f32)] ∧
    (∀ (α : Type) [OfScientific α] (inputs : Nat → Option (List α)),
      fragmentShader.run inputs = some [1.0, 0.0, 0.0, 1.0]) ∧
    (∀ inputs : Nat → Option (List ℚ), fragmentShader.run inputs = some [1, 0, 0, 1]) := by
  refine ⟨rfl, rfl, rfl, rfl, rfl, rfl, fun α _ inputs => rfl, fun inputs => ?_⟩
  have h0 : (0.0 : ℚ) = 0 := by norm_num
  have h1 : (1.0 : ℚ) = 1 := by norm_num
  have hrun : fragmentShader.run inputs = some [(1.0 : ℚ), 0.0, 0.0, 1.0] := rfl
  rw [hrun, h0, h1]

/-- C7 as stated fails: on a page where `getElementById` answers `null`, the run of `init`
does not stop silently, it ends by throwing the TypeError of `canvas.getContext`. -/
theorem init_noCanvas_raises :
    (∀ tr document, noCanvasEnv.call tr (.getElementById document "canvas") = .returns .null) ∧
    (script noCanvasEnv).outcome = .threw (.typeError .null "getContext") ∧
    (script noCanvasEnv).outcome ≠ .done () :=
  ⟨fun _ _ => rfl, by decide, by decide⟩

/-- C7 amended: when `document` and `console` are objects, the lookup of the canvas
answers `null` and `console.log` returns, `init` makes exactly two calls, the lookup and
the log of `null`, and then ends by throwing the TypeError of reading `getContext` of
`null`: no context, adapter, device, shader module or pipeline is asked for and nothing
is submitted. -/
theorem init_no_canvas (env : Env) (document console : Nat)
    (hd : ∀ tr, env.global tr "document" = some (.obj document))
    (hc : ∀ tr, env.global tr "console" = some (.obj console))
    (hnull : ∀ tr, env.call tr (.getElementById (.obj document) "canvas") = .returns .null)
    (hlog : ∀ tr, ∃ v, env.call tr (.log (.obj console) .null) = .returns v) :
    (script env).outcome = .threw (.typeError .null "getContext") ∧
    calls (script env).trace =
      [.getElementById (.obj document) "canvas", .log (.obj console) .null] ∧
    submissions (script env).trace = [] := by
  obtain ⟨v, hv⟩ := hlog [.call (.getElementById (.obj document) "canvas"),
    .ret (.getElementById (.obj document) "canvas") .null]
  have hrun : script env =
      ⟨[.call (.getElementById (.obj document) "canvas"),
        .ret (.getElementById (.obj document) "canvas") .null,
        .call (.log (.obj console) .null),
        .ret (.log (.obj console) .null) v], .threw (.typeError .null "getContext")⟩ := by
    unfold script init
    simp only [resolve_bind, member_bind, invoke_bind, hd, hc, hnull, hv, List.nil_append,
      List.cons_append]
  rw [hrun]
  exact ⟨rfl, rfl, rfl⟩

theorem init_no_canvas_witness :
    (script noCanvasEnv).outcome = .threw (.typeError .null "getContext") ∧
    calls (script noCanvasEnv).trace =
      [.getElementById (.obj 1) "canvas", .log (.obj 2) .null] ∧
    submissions (script noCanvasEnv).trace = [] :=
  init_no_canvas noCanvasEnv 1 2 (fun _ => rfl) (fun _ => rfl) (fun _ => rfl)
    (fun _ => ⟨.undefined, rfl⟩)

/-- C8: in every run of `init`, completed or not, and at every event `e` of it, with `pre`
the events before `e`: if `e` is a command operation (creating the command encoder, any
call on an encoder or on the queue) then `createRenderPipeline` has already returned; if
`e` is the call of `createRenderPipeline` on a device then that device is what the `await`
of a `requestDevice` promise gave and an `await` of a `requestAdapter` promise has
resumed; if `e` is `setPipeline` then the pipeline it binds is a value that
`createRenderPipeline` returned; and `createRenderPipeline` is called at most once and
returns at most once. -/
theorem init_order (env : Env) (pre post : List Event) (e : Event)
    (h : (script env).trace = pre ++ e :: post) :
    (∀ c, e = .call c → c.commandOp = true → returned "createRenderPipeline" pre ≠ []) ∧
    (∀ device d, e = .call (.createRenderPipeline device d) →
      Resolved "requestDevice" pre device ∧ ∃ adapter, Resolved "requestAdapter" pre adapter) ∧
    (∀ passEncoder pipeline, e = .call (.setPipeline passEncoder pipeline) →
      pipeline ∈ returned "createRenderPipeline" pre) ∧
    (pipelineDescriptors (script env).trace).length ≤ 1 ∧
    (returned "createRenderPipeline" (script env).trace).length ≤ 1 := by
  have hrule := init_orderRule env pre post e h
  refine ⟨?_, ?_, ?_, init_one_pipeline env, init_one_pipeline_returned env⟩
  · rintro c rfl hc
    cases c <;> simp only [OrderRule, Call.commandOp] at hrule hc <;>
      first
        | exact hrule trivial
        | exact List.ne_nil_of_mem hrule
        | cases hc
  · rintro device d rfl
    exact hrule
  · rintro passEncoder pipeline rfl
    exact hrule

set_option maxRecDepth 100000 in
theorem init_order_witness :
    (script okEnv).trace =
      (script okEnv).trace.take 34 ++
        .call (.setPipeline (.obj 132) (.obj 124)) :: (script okEnv).trace.drop 35 ∧
    Val.obj 124 ∈ returned "createRenderPipeline" ((script okEnv).trace.take 34) :=
  ⟨by decide,
    (init_order okEnv ((script okEnv).trace.take 34) ((script okEnv).trace.drop 35)
      (.call (.setPipeline (.obj 132) (.obj 124))) (by decide)).2.2.1 _ _ rfl⟩

/-- C9: the script declares no `vertexBuffer` and no call of `init` is a `createBuffer`;
on every page with a canvas and a GPU that answer and with no global named `vertexBuffer`,
the run of `init` ends in the ReferenceError of that name right after `setPipeline` has
returned: `beginRenderPass` and `setPipeline` are the only calls on the encoders, neither
`setVertexBuffer`, `draw`, `endPass`, `finish` nor `submit` is called, and nothing is
submitted. -/
theorem init_unbound_vertexBuffer (env : Env) (h : env.Responsive)
    (hvb : env.Unbound "vertexBuffer") :
    "vertexBuffer" ∉ declaredNames ∧
    (∀ c ∈ calls (script env).trace, c.method ≠ "createBuffer") ∧
    (script env).outcome = .threw (.referenceError "vertexBuffer") ∧
    (∃ commandEncoder view passEncoder pipeline bound,
      encoderCalls (script env).trace =
        [ .beginRenderPass commandEncoder (renderPassDescriptor view),
          .setPipeline passEncoder pipeline ] ∧
      (script env).trace.getLast? = some (.ret (.setPipeline passEncoder pipeline) bound)) ∧
    submissions (script env).trace = [] := by
  refine ⟨by decide, fun c _ => by cases c <;> simp [Call.method], ?_⟩
  obtain ⟨a, hstop | hfull⟩ := init_responsive env h
  · obtain ⟨htrace, hout, _⟩ := hstop
    rw [htrace, hout]
    exact ⟨rfl, ⟨a.commandEncoder, a.view, a.passEncoder, a.pipeline, a.bound, rfl, rfl⟩, rfl⟩
  · obtain ⟨_, _, tr, hsome⟩ := hfull
    rw [hvb tr] at hsome
    cases hsome

theorem init_unbound_vertexBuffer_witness :
    (script bareEnv).outcome = .threw (.referenceError "vertexBuffer") ∧
    submissions (script bareEnv).trace = [] :=
  ⟨(init_unbound_vertexBuffer bareEnv bareEnv_responsive bareEnv_unbound).2.2.1,
    (init_unbound_vertexBuffer bareEnv bareEnv_responsive bareEnv_unbound).2.2.2.2⟩

/-- C10: for every descriptor that a run of `init` hands to `createRenderPipeline`: each
input location the vertex stage declares (only location 0, `vec2<f32>`) is fed by exactly
one attribute of the vertex buffer layouts, whose format `float32x2` feeds that type; each
attribute ends within the stride of its layout (here exactly at it: 0 + 8 = 8); and the one
output of the fragment stage, at location 0, is matched by one colour target and by one
colour attachment of every render pass the run begins. -/
theorem init_stages_link (env : Env) (d : RenderPipelineDescriptor)
    (h : d ∈ pipelineDescriptors (script env).trace) :
    vertexShader.inputs = [(0, .vec2f32)] ∧
    (∀ i ∈ vertexShader.inputs, ∃ a,
      d.attributes.filter (fun x => x.shaderLocation = i.1) = [a] ∧
      formatType a.format = some i.2) ∧
    (∀ b ∈ d.vertex.buffers, ∀ a ∈ b.attributes, ∃ size,
      formatByteSize a.format = some size ∧
      a.offset + size ≤ b.arrayStride ∧ a.offset + size = 8 ∧ b.arrayStride = 8) ∧
    fragmentShader.outputs = [(0, .vec4f32)] ∧
    fragmentShader.outputs.length = d.fragment.targets.length ∧
    (∀ r ∈ passDescriptors (script env).trace,
      r.colorAttachments.length = d.fragment.targets.length ∧ r.colorAttachments.length = 1) := by
  obtain ⟨vm, fm, rfl⟩ := init_pipelineDescriptor env d h
  refine ⟨rfl, ?_, ?_, rfl, rfl, ?_⟩
  · intro i hi
    have hi0 : i = (0, .vec2f32) := by simpa [vertexShader, FnDecl.inputs] using hi
    subst hi0
    exact ⟨{ shaderLocation := 0, offset := 0, format := "float32x2" }, rfl, rfl⟩
  · intro b hb a ha
    have hb0 : b = { arrayStride := 8, attributes :=
        [{ shaderLocation := 0, offset := 0, format := "float32x2" }] } := by
      simpa [pipelineDescriptor] using hb
    subst hb0
    have ha0 : a = { shaderLocation := 0, offset := 0, format := "float32x2" } := by
      simpa using ha
    subst ha0
    exact ⟨8, rfl, le_refl _, rfl, rfl⟩
  · intro r hr
    obtain ⟨view, rfl⟩ := init_passDescriptor env r hr
    exact ⟨rfl, rfl⟩

theorem init_stages_link_witness :
    pipelineDescriptor (.obj 120) (.obj 122) ∈ pipelineDescriptors (script okEnv).trace ∧
    renderPassDescriptor (.obj 130) ∈ passDescriptors (script okEnv).trace ∧
    fragmentShader.outputs.length =
      (pipelineDescriptor (.obj 120) (.obj 122)).fragment.targets.length ∧
    (renderPassDescriptor (.obj 130)).colorAttachments.length = 1 :=
  ⟨by decide, by decide,
    (init_stages_link okEnv (pipelineDescriptor (.obj 120) (.obj 122)) (by decide)).2.2.2.2.1,
    ((init_stages_link okEnv (pipelineDescriptor (.obj 120) (.obj 122)) (by decide)).2.2.2.2.2
      (renderPassDescriptor (.obj 130)) (by decide)).2⟩

end WebTest
